import Mathlib

/-!
Verification of the LangChain Serve generator adapter
(`garak/generators/langchain_serve.py`).

The adapter has three operations:

* `_validate_uri` — validates a candidate endpoint URI using Python's
  `urllib.parse.urlparse`, accepting exactly the strings that parse with a
  non-empty scheme and a non-empty network location, and converting any
  parse exception into the answer `false`;
* `__init__` — reads the `LANGCHAIN_SERVE_URI` environment variable,
  validates it, and either raises `ValueError` or constructs the adapter
  with `api_endpoint = api_uri + "/invoke"`;
* `_call_model` — performs one HTTP POST and classifies the outcome:
  transport failures and HTTP error statuses become the Python value
  `None`, a 2xx body that is not JSON becomes `None`, a JSON object body
  without a non-null `output` field becomes the sentinel string
  `"No output generated"`, and otherwise the `output` value is returned
  verbatim.

The embedding below is shallow: Python exceptions that escape a function
are modelled with `Except`, the Python value `None` in a returned result is
modelled with `Option.none`, and the outcome of the HTTP round trip (which
is decided by the network and the remote endpoint, not by this code) is an
explicit input to `_call_model`.
-/

set_option autoImplicit false

/-! ## A model of `urllib.parse.urlparse`

Only the behaviour that `_validate_uri` consumes is modelled: the scheme
and network-location components and the `ValueError` raised on a bracket
mismatch in the network location.  The model follows CPython's
`urllib.parse.urlsplit`: the input is left-stripped of C0-control/space
characters, tab/CR/LF bytes are removed, the scheme is recognised before
the first `:` when it starts with an ASCII letter and continues with
scheme characters, and the network location follows a leading `//` up to
the first `/`, `?` or `#`.  (`urlparse`'s additional params splitting only
touches the path component, which `_validate_uri` never reads, so it is
not modelled.)
-/

/-- Characters stripped from the front of the URL (WHATWG C0 control or space). -/
def isC0ControlOrSpace (c : Char) : Bool := c.toNat ≤ 0x20

/-- Unsafe URL bytes removed everywhere (tab, CR, LF). -/
def isUnsafeUrlByte (c : Char) : Bool := c = '\t' || c = '\r' || c = '\n'

/-- Characters allowed in a URI scheme after the initial letter. -/
def isSchemeChar (c : Char) : Bool :=
  c.isAlpha || c.isDigit || c = '+' || c = '-' || c = '.'

/-- The components of a parsed URL that `_validate_uri` can observe. -/
structure ParseResult where
  scheme : String
  netloc : String
  path : String
  query : String
  fragment : String
deriving Repr, DecidableEq

/-- Splits a leading scheme, mirroring the `url.find(':')` logic of
`urlsplit`: the part before the first colon is a scheme when the colon is
not at position 0, the first character is an ASCII letter and the rest are
scheme characters; the scheme is lowercased. -/
def splitScheme (u : List Char) : String × List Char :=
  match u.findIdx? (fun c => c = ':') with
  | some i =>
    if 0 < i
        && (match u.head? with | some c => c.isAlpha | none => false)
        && ((u.take i).drop 1).all isSchemeChar
    then (String.mk ((u.take i).map Char.toLower), u.drop (i + 1))
    else ("", u)
  | none => ("", u)

/-- Splits the network location (everything up to the first `/`, `?` or
`#`) from the characters following the leading `//`, mirroring
`_splitnetloc`. -/
def splitNetloc (rest : List Char) : List Char × List Char :=
  let delim :=
    match rest.findIdx? (fun c => c = '/' || c = '?' || c = '#') with
    | some d => d
    | none => rest.length
  (rest.take delim, rest.drop delim)

/-- An unmatched square bracket in the network location makes `urlsplit`
raise `ValueError("Invalid IPv6 URL")`. -/
def bracketMismatch (netloc : List Char) : Bool :=
  (netloc.contains '[' && !netloc.contains ']')
    || (netloc.contains ']' && !netloc.contains '[')

/-- Splits at the first occurrence of `c`, dropping the separator; when
`c` is absent the whole input is the first component.  Mirrors Python's
`url.split(c, 1)` as used for the fragment and query. -/
def splitOnFirst (u : List Char) (c : Char) : List Char × List Char :=
  match u.findIdx? (fun x => x = c) with
  | some i => (u.take i, u.drop (i + 1))
  | none => (u, [])

/-- Assembles the path, query and fragment components after the scheme and
network location have been removed: the fragment is everything after the
first `#`, the query everything after the first `?` of what remains. -/
def finishParse (scheme netloc : String) (u : List Char) : ParseResult :=
  let fr := splitOnFirst u '#'
  let qu := splitOnFirst fr.1 '?'
  { scheme := scheme, netloc := netloc, path := String.mk qu.1,
    query := String.mk qu.2, fragment := String.mk fr.2 }

/-- Model of `urllib.parse.urlparse` on a string argument.  `Except.error`
models a raised `ValueError`. -/
def urlparse (url : String) : Except String ParseResult :=
  let u0 := (url.toList.dropWhile isC0ControlOrSpace).filter
    (fun c => !isUnsafeUrlByte c)
  let sp := splitScheme u0
  if sp.2.take 2 = ['/', '/'] then
    let nl := splitNetloc (sp.2.drop 2)
    if bracketMismatch nl.1 then
      Except.error "Invalid IPv6 URL"
    else
      Except.ok (finishParse sp.1 (String.mk nl.1) nl.2)
  else
    Except.ok (finishParse sp.1 "" sp.2)

/-! ## The adapter -/

/-- The fields of `LangChainServeLLMGenerator` that its own code assigns.
`config_hash` is the class attribute, always `"default"`. -/
structure LangChainServeLLMGenerator where
  name : String
  fullname : String
  generations : Nat
  api_endpoint : String
  config_hash : String := "default"
deriving Repr, DecidableEq

/-- Model of `os.getenv("LANGCHAIN_SERVE_URI")`: `none` when the variable
is unset.  `urlparse` coerces a `None` argument to the empty string (its
`_coerce_args`/`_decode_args` path turns falsy arguments into `''`), which
this function reproduces before parsing. -/
def _validate_uri (uri : Option String) : Bool :=
  match urlparse (uri.getD "") with
  | Except.ok r => !r.scheme.isEmpty && !r.netloc.isEmpty
  | Except.error _ => false

/-- Python's f-string rendering of the optional environment value, as used
in `f"{api_uri}/invoke"` (an unset variable would render as `"None"`, but
validation rejects that case before the f-string runs). -/
def fstringOfOpt (o : Option String) : String :=
  match o with
  | some s => s
  | none => "None"

/-- Model of `LangChainServeLLMGenerator.__init__`: `env` is the value of
the `LANGCHAIN_SERVE_URI` environment variable.  `Except.error` models the
raised `ValueError("Invalid API endpoint URI")`; no adapter value exists
in that case. -/
def LangChainServeLLMGenerator.init (env : Option String) (name : String)
    (generations : Nat := 10) : Except String LangChainServeLLMGenerator :=
  if _validate_uri env then
    Except.ok
      { name := name
        fullname := "LangChain Serve LLM " ++ name
        generations := generations
        api_endpoint := fstringOfOpt env ++ "/invoke"
        config_hash := "default" }
  else
    Except.error "Invalid API endpoint URI"

/-! ## The invocation path (`_call_model`) -/

/-- JSON values, for the decoded response body and the returned output. -/
inductive JValue where
  | null : JValue
  | str : String → JValue
  | num : Int → JValue
  | boolean : Bool → JValue
  | arr : List JValue → JValue
  | obj : List (String × JValue) → JValue

/-- The body of a received HTTP response, as seen through
`response.json()`: either it raises `json.JSONDecodeError` (`invalid`) or
it decodes to a JSON object given by its key/value pairs (Python dict keys
are unique; lookup finds the binding of a key). -/
inductive RespBody where
  | invalid : RespBody
  | jobj : List (String × JValue) → RespBody

/-- The outcome of the `requests.post` round trip, decided by the network
and the remote endpoint.  `transportError` models a
`requests.exceptions.RequestException` (connection error, timeout, …)
raised by `post` itself, before any response exists; `response` models a
completed round trip with its status code and body.
`requests.exceptions.HTTPError` is raised only by
`response.raise_for_status()`, after `response` is bound. -/
inductive HttpOutcome where
  | transportError : HttpOutcome
  | response : Nat → RespBody → HttpOutcome

/-- `response.raise_for_status()` raises `HTTPError` exactly for the
client-error (400–499) and server-error (500–599) ranges. -/
def raisesForStatus (status : Nat) : Bool :=
  400 ≤ status && status < 600

/-- The body-parsing block of `_call_model`: decode failure returns
`None`; a JSON object with no `output` key, or whose `output` is `null`,
returns the sentinel string; otherwise the `output` value is returned
verbatim. -/
def parseResponse (body : RespBody) : Option JValue :=
  match body with
  | RespBody.invalid => none
  | RespBody.jobj fields =>
    match fields.lookup "output" with
    | Option.none => some (JValue.str "No output generated")
    | some JValue.null => some (JValue.str "No output generated")
    | some v => some v

/-- Model of `_call_model`.  The first component is the Python return
value (`none` models Python's `None`); the second is the adapter state
after the call — the method body assigns no attribute of `self`, which the
explicit state-passing here makes checkable.  The structure mirrors the
source: the `HTTPError` handler returns `None` for each of its two status
ranges and would fall through to the parsing block for any other status
(unreachable, since `raise_for_status` only raises in 400–599); a
`RequestException` from `post` itself returns `None`; otherwise the body
is parsed. -/
def _call_model (g : LangChainServeLLMGenerator) (outcome : HttpOutcome) :
    Option JValue × LangChainServeLLMGenerator :=
  match outcome with
  | HttpOutcome.transportError => (none, g)
  | HttpOutcome.response status body =>
    if raisesForStatus status then
      if 400 ≤ status && status < 500 then (none, g)
      else if 500 ≤ status && status < 600 then (none, g)
      else (parseResponse body, g)
    else
      (parseResponse body, g)

/-! ## Concrete instances and shared lemmas -/

/-- The adapter produced by the test fixture configuration
(`LANGCHAIN_SERVE_URI=http://127.0.0.1:8000`, `name="test-generator"`). -/
def gTest : LangChainServeLLMGenerator :=
  { name := "test-generator"
    fullname := "LangChain Serve LLM test-generator"
    generations := 10
    api_endpoint := "http://127.0.0.1:8000/invoke"
    config_hash := "default" }

/-- A status below the 400–599 range never makes `raise_for_status` raise. -/
theorem raisesForStatus_eq_false_of_lt {status : Nat} (h : status < 400) :
    raisesForStatus status = false := by
  simp only [raisesForStatus, Bool.and_eq_false_iff, decide_eq_false_iff_not]
  omega

/-- `_call_model` leaves the adapter state untouched on every path. -/
theorem call_model_state (g : LangChainServeLLMGenerator) (o : HttpOutcome) :
    (_call_model g o).2 = g := by
  cases o with
  | transportError => rfl
  | response status body =>
    simp only [_call_model]
    split
    · split
      · rfl
      · split <;> rfl
    · rfl

/-! ## The claims -/

/-- C1: on an HTTP 2xx response whose body is a JSON object with no
`output` key, or whose `output` is null, `_call_model` returns the literal
string `"No output generated"` — a value distinct from the `None`
(`Option.none`) used for transport and protocol failures. -/
theorem C1_no_output_sentinel (g : LangChainServeLLMGenerator) (status : Nat)
    (fields : List (String × JValue))
    (h2xx : 200 ≤ status ∧ status < 300)
    (hout : fields.lookup "output" = none ∨ fields.lookup "output" = some JValue.null) :
    (_call_model g (HttpOutcome.response status (RespBody.jobj fields))).1
        = some (JValue.str "No output generated")
      ∧ (some (JValue.str "No output generated") : Option JValue) ≠ none := by
  have hr : raisesForStatus status = false :=
    raisesForStatus_eq_false_of_lt (by omega)
  refine ⟨?_, by simp⟩
  simp only [_call_model, hr, Bool.false_eq_true, if_false]
  rcases hout with h | h <;> simp [parseResponse, h]

/-- C1 witness: the test fixture's case — HTTP 200 with body `{}`. -/
theorem C1_no_output_sentinel_witness :
    (_call_model gTest (HttpOutcome.response 200 (RespBody.jobj []))).1
        = some (JValue.str "No output generated")
      ∧ (some (JValue.str "No output generated") : Option JValue) ≠ none :=
  C1_no_output_sentinel gTest 200 [] (by omega) (Or.inl rfl)

/-- C2: an HTTP response with status in 400–499 or 500–599 makes
`_call_model` return `None`; the `HTTPError` raised by `raise_for_status`
is caught inside the method, so nothing propagates to the caller (the
embedding is a total function into `Option`). -/
theorem C2_http_error_returns_none (g : LangChainServeLLMGenerator)
    (status : Nat) (body : RespBody)
    (h : (400 ≤ status ∧ status < 500) ∨ (500 ≤ status ∧ status < 600)) :
    (_call_model g (HttpOutcome.response status body)).1 = none := by
  have hr : raisesForStatus status = true := by
    simp only [raisesForStatus, Bool.and_eq_true, decide_eq_true_eq]
    omega
  simp only [_call_model, hr, if_true]
  rcases h with h | h
  · simp only [Bool.and_eq_true, decide_eq_true_eq]
    rw [if_pos]
    omega
  · rw [if_neg, if_pos]
    · simp only [Bool.and_eq_true, decide_eq_true_eq]
      omega
    · simp only [Bool.and_eq_true, decide_eq_true_eq]
      omega

/-- C2 witness: the test fixture's case — HTTP 500. -/
theorem C2_http_error_returns_none_witness :
    (_call_model gTest (HttpOutcome.response 500 RespBody.invalid)).1 = none :=
  C2_http_error_returns_none gTest 500 RespBody.invalid (Or.inr (by omega))

/-- C3: no per-invocation failure escapes `_call_model` as an exception.
The embedding makes `_call_model` a total function into
`Option JValue × LangChainServeLLMGenerator`, so nothing can propagate;
this theorem checks that each failure class named by the claim — a
transport-level `RequestException` from the request, an HTTP error status
(the range in which `raise_for_status` raises), and a body that fails to
decode as JSON — is converted to the return value `None`.  Only
construction can raise: `LangChainServeLLMGenerator.init` is the one
operation returning `Except`. -/
theorem C3_failures_absorbed (g : LangChainServeLLMGenerator) (status : Nat)
    (body : RespBody) :
    (_call_model g HttpOutcome.transportError).1 = none
    ∧ (raisesForStatus status = true →
        (_call_model g (HttpOutcome.response status body)).1 = none)
    ∧ (_call_model g (HttpOutcome.response status RespBody.invalid)).1 = none := by
  refine ⟨rfl, fun hr => ?_, ?_⟩
  · have h : (400 ≤ status ∧ status < 500) ∨ (500 ≤ status ∧ status < 600) := by
      simp only [raisesForStatus, Bool.and_eq_true, decide_eq_true_eq] at hr
      omega
    exact C2_http_error_returns_none g status body h
  · simp only [_call_model]
    split
    · split
      · rfl
      · split <;> rfl
    · rfl

/-- C3 witness: a transport failure, an HTTP 503, and a 200 with a
non-JSON body all yield `None`. -/
theorem C3_failures_absorbed_witness :
    (_call_model gTest HttpOutcome.transportError).1 = none
    ∧ (_call_model gTest (HttpOutcome.response 503 (RespBody.jobj []))).1 = none
    ∧ (_call_model gTest (HttpOutcome.response 200 RespBody.invalid)).1 = none :=
  ⟨(C3_failures_absorbed gTest 503 (RespBody.jobj [])).1,
   (C3_failures_absorbed gTest 503 (RespBody.jobj [])).2.1 (by decide),
   (C3_failures_absorbed gTest 200 RespBody.invalid).2.2⟩

/-- C4: `_validate_uri` accepts a string exactly when it parses into a
URI with a non-empty scheme and a non-empty network location; in
particular it rejects `"bad_uri"`, `""` and `"/just/a/path"` and accepts
`"http://127.0.0.1:8000"`. -/
theorem C4_validate_uri_iff :
    (∀ s : String, _validate_uri (some s) = true ↔
      ∃ r : ParseResult, urlparse s = Except.ok r ∧ r.scheme ≠ "" ∧ r.netloc ≠ "")
    ∧ _validate_uri (some "bad_uri") = false
    ∧ _validate_uri (some "") = false
    ∧ _validate_uri (some "/just/a/path") = false
    ∧ _validate_uri (some "http://127.0.0.1:8000") = true := by
  refine ⟨fun s => ?_, by decide, by decide, by decide, by decide⟩
  unfold _validate_uri
  simp only [Option.getD_some]
  cases h : urlparse s with
  | ok r =>
    simp [h, Bool.and_eq_true, Bool.eq_false_iff, String.isEmpty_iff]
  | error e =>
    simp [h]

/-- C4 witness: the accepted example, with its parse components. -/
theorem C4_validate_uri_iff_witness :
    _validate_uri (some "http://127.0.0.1:8000") = true
    ∧ ∃ r : ParseResult, urlparse "http://127.0.0.1:8000" = Except.ok r
        ∧ r.scheme ≠ "" ∧ r.netloc ≠ "" :=
  ⟨C4_validate_uri_iff.2.2.2.2,
   (C4_validate_uri_iff.1 "http://127.0.0.1:8000").mp C4_validate_uri_iff.2.2.2.2⟩

/-- C5: construction with the environment variable unset, empty, or set
to a string that does not parse into a URI with both a scheme and a
network location raises `ValueError("Invalid API endpoint URI")`; the
`Except.error` result carries no adapter value, so no partially
constructed adapter exists. -/
theorem C5_invalid_env_aborts_construction (env : Option String)
    (name : String) (gens : Nat)
    (h : env = none ∨ env = some "" ∨
      ∀ s, env = some s → ∀ r, urlparse s = Except.ok r →
        r.scheme = "" ∨ r.netloc = "") :
    LangChainServeLLMGenerator.init env name gens
      = Except.error "Invalid API endpoint URI" := by
  have hv : _validate_uri env = false := by
    rcases h with h | h | h
    · subst h; decide
    · subst h; decide
    · cases env with
      | none => decide
      | some s =>
        unfold _validate_uri
        simp only [Option.getD_some]
        cases hp : urlparse s with
        | ok r =>
          rcases h s rfl r hp with he | he <;>
            simp [he, String.isEmpty_iff]
        | error e => rfl
  simp [LangChainServeLLMGenerator.init, hv]

/-- C5 witness: an unset environment variable aborts construction. -/
theorem C5_invalid_env_aborts_construction_witness :
    LangChainServeLLMGenerator.init none "test-generator" 10
      = Except.error "Invalid API endpoint URI" :=
  C5_invalid_env_aborts_construction none "test-generator" 10 (Or.inl rfl)

/-- C6: on an HTTP 2xx response whose body is a JSON object with a
present, non-null `output` field, `_call_model` returns the value of
`output` verbatim, whatever its shape. -/
theorem C6_output_verbatim (g : LangChainServeLLMGenerator) (status : Nat)
    (fields : List (String × JValue)) (v : JValue)
    (h2xx : 200 ≤ status ∧ status < 300)
    (hlook : fields.lookup "output" = some v) (hnn : v ≠ JValue.null) :
    (_call_model g (HttpOutcome.response status (RespBody.jobj fields))).1
      = some v := by
  have hr : raisesForStatus status = false :=
    raisesForStatus_eq_false_of_lt (by omega)
  simp only [_call_model, hr, Bool.false_eq_true, if_false]
  simp only [parseResponse, hlook]

/-- C6 witness: the test fixture's case — body
`{"output": ["Generated text"]}` yields the one-element sequence whose
first element is `"Generated text"`. -/
theorem C6_output_verbatim_witness :
    (_call_model gTest (HttpOutcome.response 200
        (RespBody.jobj [("output", JValue.arr [JValue.str "Generated text"])]))).1
      = some (JValue.arr [JValue.str "Generated text"])
    ∧ [JValue.str "Generated text"].head? = some (JValue.str "Generated text") :=
  ⟨C6_output_verbatim gTest 200
      [("output", JValue.arr [JValue.str "Generated text"])]
      (JValue.arr [JValue.str "Generated text"]) (by omega) rfl
      (fun h => JValue.noConfusion h),
   rfl⟩

/-- C7: a successful construction stores
`api_endpoint = <base URI> ++ "/invoke"` together with the other fields
the constructor assigns. -/
theorem C7_api_endpoint_suffix (uri name : String) (gens : Nat)
    (h : _validate_uri (some uri) = true) :
    LangChainServeLLMGenerator.init (some uri) name gens =
      Except.ok
        { name := name
          fullname := "LangChain Serve LLM " ++ name
          generations := gens
          api_endpoint := uri ++ "/invoke"
          config_hash := "default" } := by
  simp [LangChainServeLLMGenerator.init, h, fstringOfOpt]

/-- C7 witness: `LANGCHAIN_SERVE_URI=http://127.0.0.1:8000` yields
`api_endpoint = "http://127.0.0.1:8000/invoke"`. -/
theorem C7_api_endpoint_suffix_witness :
    LangChainServeLLMGenerator.init (some "http://127.0.0.1:8000")
        "test-generator" 10
      = Except.ok
        { name := "test-generator"
          fullname := "LangChain Serve LLM test-generator"
          generations := 10
          api_endpoint := "http://127.0.0.1:8000/invoke"
          config_hash := "default" } :=
  C7_api_endpoint_suffix "http://127.0.0.1:8000" "test-generator" 10 (by decide)

/-- C8: `_validate_uri` never raises: it is a total function into `Bool`,
and whenever the parse raises (modelled by `urlparse` returning
`Except.error`), the `except` branch converts the exception into the
answer `false` instead of propagating it. -/
theorem C8_validate_uri_no_raise (s e : String)
    (h : urlparse s = Except.error e) :
    _validate_uri (some s) = false := by
  unfold _validate_uri
  simp [h]

/-- C8 witness: `"http://[abc"` makes the parse raise
(`ValueError("Invalid IPv6 URL")`), and validation answers `false`. -/
theorem C8_validate_uri_no_raise_witness :
    _validate_uri (some "http://[abc") = false :=
  C8_validate_uri_no_raise "http://[abc" "Invalid IPv6 URL" rfl

/-- C9: whenever the `HTTPError` handler runs, a response was received
(in the embedding `HTTPError` arises only from `raise_for_status` on a
received response, so the `response` variable is bound), its status lies
in 400–499 or 500–599, and the handler returns `None` for every body —
it never falls through to the response-parsing code. -/
theorem C9_http_error_handler (g : LangChainServeLLMGenerator)
    (status : Nat) (body : RespBody)
    (h : raisesForStatus status = true) :
    ((400 ≤ status ∧ status < 500) ∨ (500 ≤ status ∧ status < 600))
    ∧ (_call_model g (HttpOutcome.response status body)).1 = none := by
  have hrange : (400 ≤ status ∧ status < 500) ∨ (500 ≤ status ∧ status < 600) := by
    simp only [raisesForStatus, Bool.and_eq_true, decide_eq_true_eq] at h
    omega
  exact ⟨hrange, C2_http_error_returns_none g status body hrange⟩

/-- C9 witness: a 404 response lands in the client-error branch and
yields `None` even though its body would not parse. -/
theorem C9_http_error_handler_witness :
    ((400 ≤ 404 ∧ 404 < 500) ∨ (500 ≤ 404 ∧ 404 < 600))
    ∧ (_call_model gTest (HttpOutcome.response 404 RespBody.invalid)).1 = none :=
  C9_http_error_handler gTest 404 RespBody.invalid (by decide)

/-- C10: `_call_model` assigns no attribute of the adapter: `name`,
`fullname`, `generations`, `config_hash` and `api_endpoint` are unchanged
by any invocation, and running the call again from the post-call state
with the same response gives the same result. -/
theorem C10_call_model_preserves_state (g : LangChainServeLLMGenerator)
    (outcome : HttpOutcome) :
    ((_call_model g outcome).2.name = g.name
      ∧ (_call_model g outcome).2.fullname = g.fullname
      ∧ (_call_model g outcome).2.generations = g.generations
      ∧ (_call_model g outcome).2.config_hash = g.config_hash
      ∧ (_call_model g outcome).2.api_endpoint = g.api_endpoint)
    ∧ _call_model (_call_model g outcome).2 outcome = _call_model g outcome := by
  have h := call_model_state g outcome
  rw [h]
  exact ⟨⟨rfl, rfl, rfl, rfl, rfl⟩, rfl⟩
